import Mathlib

/-!
Shallow embedding of the decision logic of `src/hello-triangle.c`
(a single-file Vulkan "hello triangle" program) together with proofs
about its queue-family selection, physical-device selection and
swapchain negotiation.

Vulkan handles are modelled as opaque `Nat` ids; the enumeration
results that the Vulkan API would return (queue-family lists, device
lists, format lists, present-mode lists, surface capabilities) are the
inputs of the embedded functions.  Machine integers in the source are
`uint32_t`; every arithmetic operation performed by the embedded code
(comparisons, `min`, `max`, `minImageCount + 1`) stays far below
`2^32` or is a plain comparison, so `Nat` models them exactly, with
the constant `UINT32_MAX` spelled out where the source uses it.
-/

/-- Window width constant `WIDTH` (hello-triangle.c, line 38). -/
def WIDTH : Nat := 800

/-- Window height constant `HEIGHT` (hello-triangle.c, line 39). -/
def HEIGHT : Nat := 600

/-- The C constant `UINT32_MAX`, used as the "undefined extent" sentinel. -/
def UINT32_MAX : Nat := 4294967295

/-- `VkExtent2D`: a pair of `uint32_t` dimensions. -/
structure VkExtent2D where
  width : Nat
  height : Nat
deriving DecidableEq

/-- The fields of `VkSurfaceCapabilitiesKHR` that the program reads. -/
structure VkSurfaceCapabilitiesKHR where
  minImageCount : Nat
  maxImageCount : Nat
  currentExtent : VkExtent2D
  minImageExtent : VkExtent2D
  maxImageExtent : VkExtent2D
deriving DecidableEq

/-- `VkSurfaceFormatKHR`: a (format, colorSpace) pair of enum values. -/
structure VkSurfaceFormatKHR where
  format : Nat
  colorSpace : Nat
deriving DecidableEq

/-- Enum value of `VK_FORMAT_B8G8R8A8_UNORM` in vulkan_core.h. -/
def VK_FORMAT_B8G8R8A8_UNORM : Nat := 44

/-- Enum value of `VK_COLOR_SPACE_SRGB_NONLINEAR_KHR` in vulkan_core.h. -/
def VK_COLOR_SPACE_SRGB_NONLINEAR_KHR : Nat := 0

/-- Enum value of `VK_PRESENT_MODE_MAILBOX_KHR` in vulkan_core.h. -/
def VK_PRESENT_MODE_MAILBOX_KHR : Nat := 1

/-- Enum value of `VK_PRESENT_MODE_FIFO_KHR` in vulkan_core.h. -/
def VK_PRESENT_MODE_FIFO_KHR : Nat := 2

/-- Enum value of `VK_PHYSICAL_DEVICE_TYPE_DISCRETE_GPU` in vulkan_core.h. -/
def VK_PHYSICAL_DEVICE_TYPE_DISCRETE_GPU : Nat := 2

/-- One queue family as the Vulkan environment reports it: whether its
`queueFlags` contain `VK_QUEUE_GRAPHICS_BIT`, and whether
`vkGetPhysicalDeviceSurfaceSupportKHR` reports presentation support for
this family against the bound surface.  (The C program queries the
second; it never fetches the properties array that carries the first.) -/
structure QueueFamily where
  supportsGraphics : Bool
  presentSupport : Bool
deriving DecidableEq

/-- The struct `queue_family_indices_t` (hello-triangle.c, lines 15-21). -/
structure queue_family_indices_t where
  graphicsFamily : Nat
  didSetGraphicsFamily : Bool
  presentFamily : Nat
  didSetPresentFamily : Bool
deriving DecidableEq

/-- Body of the scan loop of `FindQueueFamilies` (hello-triangle.c, lines
231-241), with `i` the index of the head family.  Each iteration
unconditionally stores `i` as the graphics family (the source never
reads the family's queue flags), and stores `i` as the present family
exactly when the family reports presentation support. -/
def findQueueFamiliesLoop (i : Nat) (acc : queue_family_indices_t) :
    List QueueFamily → queue_family_indices_t
  | [] => acc
  | fam :: rest =>
    let acc1 := { acc with graphicsFamily := i, didSetGraphicsFamily := true }
    let acc2 := if fam.presentSupport then
        { acc1 with presentFamily := i, didSetPresentFamily := true }
      else acc1
    findQueueFamiliesLoop (i + 1) acc2 rest

/-- `FindQueueFamilies` (hello-triangle.c, lines 220-244): the indices
struct is zero-initialised (`memset`), an empty family list returns it
unchanged (the early return at line 228 coincides with running the loop
zero times), otherwise the scan loop runs over the whole list. -/
def FindQueueFamilies (families : List QueueFamily) : queue_family_indices_t :=
  findQueueFamiliesLoop 0 ⟨0, false, 0, false⟩ families

/-- The queue-family validation at the head of `CreateLogicalDevice`
(hello-triangle.c, lines 246-254): call `FindQueueFamilies`, terminate
fatally when a flag is unset, otherwise proceed with the indices. -/
def CreateLogicalDeviceQueueSetup (families : List QueueFamily) :
    Except String queue_family_indices_t :=
  let indices := FindQueueFamilies families
  if indices.didSetGraphicsFamily = false then
    Except.error "Failed to find graphics queue family."
  else if indices.didSetPresentFamily = false then
    Except.error "Failed to find present queue family."
  else
    Except.ok indices

/-- `queueCreateInfoCount` computed in `CreateLogicalDevice`
(hello-triangle.c, line 274): one queue-create entry when the two
family indices coincide, two otherwise. -/
def queueCreateInfoCount (q : queue_family_indices_t) : Nat :=
  if q.graphicsFamily = q.presentFamily then 1 else 2

/-- `VkSharingMode` values used by the program. -/
inductive VkSharingMode
  | exclusive
  | concurrent
deriving DecidableEq

/-- The sharing-mode fields of the swapchain create info
(hello-triangle.c, lines 394-403): `(imageSharingMode,
queueFamilyIndexCount, pQueueFamilyIndices)`. -/
def swapchainSharing (q : queue_family_indices_t) :
    VkSharingMode × Nat × List Nat :=
  if q.graphicsFamily ≠ q.presentFamily then
    (VkSharingMode.concurrent, 2, [q.graphicsFamily, q.presentFamily])
  else
    (VkSharingMode.exclusive, 0, [])

/-- The requested image count computed in `CreateSwapChain`
(hello-triangle.c, lines 373-376). -/
def swapchainImageCountRequest (caps : VkSurfaceCapabilitiesKHR) : Nat :=
  let imageCount := caps.minImageCount + 1
  if caps.maxImageCount > 0 ∧ imageCount > caps.maxImageCount then
    caps.maxImageCount
  else
    imageCount

/-- Search loop of `ChooseSwapSurfaceFormat` (hello-triangle.c, lines
332-336): first entry equal to (B8G8R8A8_UNORM, SRGB_NONLINEAR). -/
def findPreferredFormat : List VkSurfaceFormatKHR → Option VkSurfaceFormatKHR
  | [] => none
  | f :: rest =>
    if f.format = VK_FORMAT_B8G8R8A8_UNORM ∧
        f.colorSpace = VK_COLOR_SPACE_SRGB_NONLINEAR_KHR then
      some f
    else
      findPreferredFormat rest

/-- `ChooseSwapSurfaceFormat` (hello-triangle.c, lines 331-339).  The
fallback `details.formats[0]` is modelled as `head?`; on the empty list
the C code would dereference a null array, a case `main` (line 805)
rules out before ever calling it. -/
def ChooseSwapSurfaceFormat (formats : List VkSurfaceFormatKHR) :
    Option VkSurfaceFormatKHR :=
  match findPreferredFormat formats with
  | some f => some f
  | none => formats.head?

/-- Search loop of `ChoosePresentMode` (hello-triangle.c, lines 343-347):
first entry equal to `VK_PRESENT_MODE_MAILBOX_KHR`. -/
def findMailboxMode : List Nat → Option Nat
  | [] => none
  | m :: rest =>
    if m = VK_PRESENT_MODE_MAILBOX_KHR then some m else findMailboxMode rest

/-- `ChoosePresentMode` (hello-triangle.c, lines 341-350): mailbox when
listed, otherwise FIFO unconditionally. -/
def ChoosePresentMode (modes : List Nat) : Nat :=
  match findMailboxMode modes with
  | some m => m
  | none => VK_PRESENT_MODE_FIFO_KHR

/-- `ChooseSwapExtent` (hello-triangle.c, lines 352-366).  The only
sentinel test in the source is `currentExtent.width != UINT32_MAX`; the
clamp branch applies `MAX(min, MIN(max, requested))` per component to
the fixed (WIDTH, HEIGHT) request. -/
def ChooseSwapExtent (caps : VkSurfaceCapabilitiesKHR) : VkExtent2D :=
  if caps.currentExtent.width ≠ UINT32_MAX then
    caps.currentExtent
  else
    { width := max caps.minImageExtent.width
        (min caps.maxImageExtent.width WIDTH),
      height := max caps.minImageExtent.height
        (min caps.maxImageExtent.height HEIGHT) }

/-- The fields of `VkPhysicalDeviceProperties` the program reads. -/
structure PhysicalDevice where
  deviceType : Nat
deriving DecidableEq

/-- `IsDiscreteGPU` (hello-triangle.c, lines 158-166). -/
def IsDiscreteGPU (d : PhysicalDevice) : Bool :=
  d.deviceType = VK_PHYSICAL_DEVICE_TYPE_DISCRETE_GPU

/-- Selection loop of `PickPhysicalVulkanDevice` (hello-triangle.c,
lines 180-185): first discrete device, in enumeration order. -/
def pickDiscreteLoop : List PhysicalDevice → Option PhysicalDevice
  | [] => none
  | d :: rest => if IsDiscreteGPU d then some d else pickDiscreteLoop rest

/-- Device selection in `PickPhysicalVulkanDevice` (hello-triangle.c,
lines 168-190): first discrete device if any, otherwise `devices[0]`
(modelled by `head?`; the empty enumeration terminates fatally at line
172 before the selection runs). -/
def PickPhysicalVulkanDevice (devices : List PhysicalDevice) :
    Option PhysicalDevice :=
  match pickDiscreteLoop devices with
  | some d => some d
  | none => devices.head?

/-- The fields of an image view the program sets per swapchain image
(hello-triangle.c, lines 420-438): the wrapped image.  The remaining
fields (2D view type, identity swizzle, single mip/layer, color aspect)
are the same constants for every view and carry no per-index data. -/
structure VkImageView where
  image : Nat
deriving DecidableEq

/-- The per-index fields of a framebuffer (hello-triangle.c, lines
659-667): its single attachment and the negotiated extent. -/
structure VkFramebuffer where
  attachment : VkImageView
  width : Nat
  height : Nat
deriving DecidableEq

/-- What `CreateCommandBuffers` records into command buffer `i`
(hello-triangle.c, lines 701-736): the framebuffer its render pass
begins against, and the fixed draw of 3 vertices / 1 instance. -/
structure RecordedCommandBuffer where
  framebuffer : VkFramebuffer
  drawVertexCount : Nat
  drawInstanceCount : Nat
deriving DecidableEq

/-- `CreateImageViews` (hello-triangle.c, lines 417-444): one view per
swapchain image, view `i` wrapping `swapchainImages[i]`. -/
def CreateImageViews (swapchainImages : List Nat) : List VkImageView :=
  swapchainImages.map (fun img => { image := img })

/-- `CreateFramebuffers` (hello-triangle.c, lines 651-673): one
framebuffer per image, framebuffer `i` wrapping `swapChainImageViews[i]`
as its sole attachment, sized to the swapchain extent. -/
def CreateFramebuffers (views : List VkImageView) (extent : VkExtent2D) :
    List VkFramebuffer :=
  views.map (fun v =>
    { attachment := v, width := extent.width, height := extent.height })

/-- `CreateCommandBuffers` (hello-triangle.c, lines 687-737): one
primary command buffer per image; buffer `i` begins its render pass
against `swapchainFramebuffers[i]` and draws 3 vertices, 1 instance. -/
def CreateCommandBuffers (framebuffers : List VkFramebuffer) :
    List RecordedCommandBuffer :=
  framebuffers.map (fun fb =>
    { framebuffer := fb, drawVertexCount := 3, drawInstanceCount := 1 })


/-! ### Supporting lemmas about the queue-family scan loop -/

theorem findQueueFamiliesLoop_graphics (fams : List QueueFamily) :
    ∀ (i : Nat) (acc : queue_family_indices_t), fams ≠ [] →
      (findQueueFamiliesLoop i acc fams).graphicsFamily = i + (fams.length - 1) ∧
      (findQueueFamiliesLoop i acc fams).didSetGraphicsFamily = true := by
  induction fams with
  | nil => intro i acc h; exact absurd rfl h
  | cons fam rest ih =>
    intro i acc _
    by_cases hr : rest = []
    · subst hr
      cases hp : fam.presentSupport <;> simp [findQueueFamiliesLoop, hp]
    · have hlen : rest.length ≠ 0 := fun h0 => hr (List.length_eq_zero.mp h0)
      cases hp : fam.presentSupport <;>
        simp only [findQueueFamiliesLoop, hp, Bool.false_eq_true, if_false,
          if_true, List.length_cons] <;>
        exact ⟨((ih (i + 1) _ hr).1).trans (by omega), (ih (i + 1) _ hr).2⟩

theorem findQueueFamiliesLoop_didSetPresent (fams : List QueueFamily) :
    ∀ (i : Nat) (acc : queue_family_indices_t),
      (findQueueFamiliesLoop i acc fams).didSetPresentFamily =
        (acc.didSetPresentFamily || fams.any (fun f => f.presentSupport)) := by
  induction fams with
  | nil => intro i acc; simp [findQueueFamiliesLoop]
  | cons fam rest ih =>
    intro i acc
    cases hp : fam.presentSupport <;> simp [findQueueFamiliesLoop, hp, ih]

/-- The graphics index recorded by the scan is always the last index of the
scanned list, no matter which families expose graphics capability: the
loop body never reads the family's flags. -/
theorem FindQueueFamilies_graphics_is_last_index (fams : List QueueFamily)
    (h : fams ≠ []) :
    (FindQueueFamilies fams).graphicsFamily = fams.length - 1 ∧
    (FindQueueFamilies fams).didSetGraphicsFamily = true := by
  have hl := findQueueFamiliesLoop_graphics fams 0 ⟨0, false, 0, false⟩ h
  simpa [FindQueueFamilies] using hl

/-- The present flag is set exactly when some family reports presentation
support; this half of the scan does inspect the environment. -/
theorem FindQueueFamilies_didSetPresent (fams : List QueueFamily) :
    (FindQueueFamilies fams).didSetPresentFamily =
      fams.any (fun f => f.presentSupport) := by
  simpa [FindQueueFamilies] using
    findQueueFamiliesLoop_didSetPresent fams 0 ⟨0, false, 0, false⟩

/-- C1: refuted on the code — at the family list [graphics+present,
no-graphics+present] the scan records graphics family 1, the overall last
index, although the last family exposing graphics capability is family 0;
the loop body never reads the families' capability flags (it stores every
index), so the `supportsGraphics` field of the input is ignored. -/
theorem findQueueFamilies_c1_failing_input :
    FindQueueFamilies [⟨true, true⟩, ⟨false, true⟩] = ⟨1, true, 1, true⟩ ∧
    ([⟨true, true⟩, ⟨false, true⟩] : List QueueFamily).get? 0 =
      some ⟨true, true⟩ ∧
    ([⟨true, true⟩, ⟨false, true⟩] : List QueueFamily).get? 1 =
      some ⟨false, true⟩ := by decide

/-- C2: refuted on the code — for the one-family list whose only family has
no graphics capability (but does support presentation), queue-family
selection does not fail: `CreateLogicalDevice` proceeds, silently recording
family 0 as the graphics family, because `didSetGraphicsFamily` is set
unconditionally on every scanned family. -/
theorem createLogicalDevice_c2_failing_input :
    (∀ f ∈ ([⟨false, true⟩] : List QueueFamily), f.supportsGraphics = false) ∧
    CreateLogicalDeviceQueueSetup [⟨false, true⟩] =
      Except.ok ⟨0, true, 0, true⟩ :=
  ⟨by decide, rfl⟩

/-- When no family reports presentation support, selection does fail
fatally with the present-family error (the presentation half of the check
is live, unlike the graphics half). -/
theorem createLogicalDevice_no_present_fatal (fams : List QueueFamily)
    (hne : fams ≠ [])
    (h : ∀ f ∈ fams, f.presentSupport = false) :
    CreateLogicalDeviceQueueSetup fams =
      Except.error "Failed to find present queue family." := by
  have hg := (FindQueueFamilies_graphics_is_last_index fams hne).2
  have hp : (FindQueueFamilies fams).didSetPresentFamily = false := by
    rw [FindQueueFamilies_didSetPresent]
    simp only [List.any_eq_false]
    intro f hf
    simp [h f hf]
  simp [CreateLogicalDeviceQueueSetup, hg, hp]

/-- C4: for every capabilities record the requested swapchain image count
is min+1 capped at a nonzero max, and the two spec-named instances
resolve to 2. -/
theorem swapchain_image_count_spec :
    (∀ caps : VkSurfaceCapabilitiesKHR,
      swapchainImageCountRequest caps =
        if caps.maxImageCount = 0 then caps.minImageCount + 1
        else min (caps.minImageCount + 1) caps.maxImageCount) ∧
    swapchainImageCountRequest ⟨2, 2, ⟨0, 0⟩, ⟨0, 0⟩, ⟨0, 0⟩⟩ = 2 ∧
    swapchainImageCountRequest ⟨1, 0, ⟨0, 0⟩, ⟨0, 0⟩, ⟨0, 0⟩⟩ = 2 := by
  refine ⟨?_, by decide, by decide⟩
  intro caps
  simp only [swapchainImageCountRequest]
  by_cases h0 : caps.maxImageCount = 0
  · have hc : ¬(caps.maxImageCount > 0 ∧
        caps.minImageCount + 1 > caps.maxImageCount) := by omega
    rw [if_neg hc, if_pos h0]
  · rw [if_neg h0]
    by_cases hgt : caps.minImageCount + 1 > caps.maxImageCount
    · rw [if_pos ⟨Nat.pos_of_ne_zero h0, hgt⟩]
      exact (min_eq_right (Nat.le_of_lt hgt)).symm
    · rw [if_neg (fun hc => hgt hc.2)]
      exact (min_eq_left (Nat.le_of_not_lt hgt)).symm

/-- C5: identical graphics and present families yield exclusive sharing
and one queue-create entry; distinct families yield concurrent sharing
listing both indices and two queue-create entries. -/
theorem sharing_mode_and_queue_entry_count (q : queue_family_indices_t) :
    (q.graphicsFamily = q.presentFamily →
      swapchainSharing q = (VkSharingMode.exclusive, 0, []) ∧
      queueCreateInfoCount q = 1) ∧
    (q.graphicsFamily ≠ q.presentFamily →
      swapchainSharing q = (VkSharingMode.concurrent, 2,
        [q.graphicsFamily, q.presentFamily]) ∧
      queueCreateInfoCount q = 2) := by
  constructor
  · intro h; simp [swapchainSharing, queueCreateInfoCount, h]
  · intro h; simp [swapchainSharing, queueCreateInfoCount, h]

theorem sharing_mode_and_queue_entry_count_witness :
    (swapchainSharing ⟨3, true, 3, true⟩ = (VkSharingMode.exclusive, 0, []) ∧
      queueCreateInfoCount ⟨3, true, 3, true⟩ = 1) ∧
    (swapchainSharing ⟨0, true, 1, true⟩ =
        (VkSharingMode.concurrent, 2, [0, 1]) ∧
      queueCreateInfoCount ⟨0, true, 1, true⟩ = 2) :=
  ⟨(sharing_mode_and_queue_entry_count ⟨3, true, 3, true⟩).1 rfl,
   (sharing_mode_and_queue_entry_count ⟨0, true, 1, true⟩).2 (by decide)⟩

/-! ### Present-mode selection -/

theorem findMailboxMode_eq_some (modes : List Nat)
    (h : VK_PRESENT_MODE_MAILBOX_KHR ∈ modes) :
    findMailboxMode modes = some VK_PRESENT_MODE_MAILBOX_KHR := by
  induction modes with
  | nil => cases h
  | cons m rest ih =>
    by_cases hm : m = VK_PRESENT_MODE_MAILBOX_KHR
    · simp [findMailboxMode, hm]
    · have hrest : VK_PRESENT_MODE_MAILBOX_KHR ∈ rest := by
        cases h with
        | head => exact absurd rfl hm
        | tail _ h2 => exact h2
      simp [findMailboxMode, hm, ih hrest]

theorem findMailboxMode_eq_none (modes : List Nat)
    (h : VK_PRESENT_MODE_MAILBOX_KHR ∉ modes) :
    findMailboxMode modes = none := by
  induction modes with
  | nil => rfl
  | cons m rest ih =>
    have hm : ¬ m = VK_PRESENT_MODE_MAILBOX_KHR := fun he => h (by simp [he])
    have hrest : VK_PRESENT_MODE_MAILBOX_KHR ∉ rest :=
      fun h2 => h (List.mem_cons_of_mem m h2)
    simp [findMailboxMode, hm, ih hrest]

/-- C7: for every present-mode list, mailbox is returned when it appears
in the list, and otherwise FIFO is returned unconditionally — the list is
quantified over freely, so in particular the FIFO fallback holds even for
lists that do not contain FIFO. -/
theorem present_mode_spec (modes : List Nat) :
    (VK_PRESENT_MODE_MAILBOX_KHR ∈ modes →
      ChoosePresentMode modes = VK_PRESENT_MODE_MAILBOX_KHR) ∧
    (VK_PRESENT_MODE_MAILBOX_KHR ∉ modes →
      ChoosePresentMode modes = VK_PRESENT_MODE_FIFO_KHR) := by
  constructor
  · intro h; simp [ChoosePresentMode, findMailboxMode_eq_some modes h]
  · intro h; simp [ChoosePresentMode, findMailboxMode_eq_none modes h]

theorem present_mode_spec_witness :
    ChoosePresentMode [0, 1, 2] = VK_PRESENT_MODE_MAILBOX_KHR ∧
    ChoosePresentMode [0] = VK_PRESENT_MODE_FIFO_KHR :=
  ⟨(present_mode_spec [0, 1, 2]).1 (by decide),
   (present_mode_spec [0]).2 (by decide)⟩

/-! ### Surface-format selection -/

theorem findPreferredFormat_eq_none (formats : List VkSurfaceFormatKHR)
    (h : ∀ f ∈ formats, ¬(f.format = VK_FORMAT_B8G8R8A8_UNORM ∧
      f.colorSpace = VK_COLOR_SPACE_SRGB_NONLINEAR_KHR)) :
    findPreferredFormat formats = none := by
  induction formats with
  | nil => rfl
  | cons f rest ih =>
    have hf := h f (List.mem_cons_self f rest)
    simp only [findPreferredFormat]
    rw [if_neg hf]
    exact ih (fun g hg => h g (List.mem_cons_of_mem f hg))

theorem findPreferredFormat_eq_some (formats : List VkSurfaceFormatKHR)
    (h : ∃ f ∈ formats, f.format = VK_FORMAT_B8G8R8A8_UNORM ∧
      f.colorSpace = VK_COLOR_SPACE_SRGB_NONLINEAR_KHR) :
    findPreferredFormat formats =
      some ⟨VK_FORMAT_B8G8R8A8_UNORM, VK_COLOR_SPACE_SRGB_NONLINEAR_KHR⟩ := by
  induction formats with
  | nil => obtain ⟨f, hf, _⟩ := h; cases hf
  | cons f rest ih =>
    by_cases hp : f.format = VK_FORMAT_B8G8R8A8_UNORM ∧
        f.colorSpace = VK_COLOR_SPACE_SRGB_NONLINEAR_KHR
    · have hfeq : f = ⟨VK_FORMAT_B8G8R8A8_UNORM,
          VK_COLOR_SPACE_SRGB_NONLINEAR_KHR⟩ := by
        obtain ⟨h1, h2⟩ := hp
        cases f
        simp_all
      simp only [findPreferredFormat]
      rw [if_pos hp, hfeq]
    · obtain ⟨g, hg, hgp⟩ := h
      have hgrest : g ∈ rest := by
        cases hg with
        | head => exact absurd hgp hp
        | tail _ h2 => exact h2
      simp only [findPreferredFormat]
      rw [if_neg hp]
      exact ih ⟨g, hgrest, hgp⟩

/-- C6: for every non-empty format list the negotiator returns the
(B8G8R8A8_UNORM, SRGB_NONLINEAR) pair whenever some entry matches it,
otherwise it returns the first entry, and it never fails. -/
theorem choose_format_spec (formats : List VkSurfaceFormatKHR)
    (hne : formats ≠ []) :
    ((∃ f ∈ formats, f.format = VK_FORMAT_B8G8R8A8_UNORM ∧
        f.colorSpace = VK_COLOR_SPACE_SRGB_NONLINEAR_KHR) →
      ChooseSwapSurfaceFormat formats =
        some ⟨VK_FORMAT_B8G8R8A8_UNORM, VK_COLOR_SPACE_SRGB_NONLINEAR_KHR⟩) ∧
    ((∀ f ∈ formats, ¬(f.format = VK_FORMAT_B8G8R8A8_UNORM ∧
        f.colorSpace = VK_COLOR_SPACE_SRGB_NONLINEAR_KHR)) →
      ChooseSwapSurfaceFormat formats = formats.head?) ∧
    (ChooseSwapSurfaceFormat formats).isSome = true := by
  refine ⟨?_, ?_, ?_⟩
  · intro h
    simp [ChooseSwapSurfaceFormat, findPreferredFormat_eq_some formats h]
  · intro h
    simp [ChooseSwapSurfaceFormat, findPreferredFormat_eq_none formats h]
  · cases formats with
    | nil => exact absurd rfl hne
    | cons a rest =>
      rcases hf : findPreferredFormat (a :: rest) with _ | f <;>
        simp [ChooseSwapSurfaceFormat, hf]

theorem choose_format_spec_witness :
    ChooseSwapSurfaceFormat [⟨0, 0⟩] = some ⟨0, 0⟩ ∧
    ChooseSwapSurfaceFormat [⟨0, 0⟩, ⟨44, 0⟩] = some ⟨44, 0⟩ := by
  constructor
  · exact ((choose_format_spec [⟨0, 0⟩] (by decide)).2.1 (by decide)).trans rfl
  · exact (choose_format_spec [⟨0, 0⟩, ⟨44, 0⟩] (by decide)).1 (by decide)

/-! ### Physical-device selection -/

theorem pickDiscreteLoop_none (devices : List PhysicalDevice)
    (h : ∀ d ∈ devices, IsDiscreteGPU d = false) :
    pickDiscreteLoop devices = none := by
  induction devices with
  | nil => rfl
  | cons d rest ih =>
    have hd := h d (List.mem_cons_self d rest)
    simp only [pickDiscreteLoop]
    rw [if_neg (by simp [hd])]
    exact ih (fun g hg => h g (List.mem_cons_of_mem d hg))

theorem pickDiscreteLoop_first (devices : List PhysicalDevice) :
    ∀ (i : Nat) (hi : i < devices.length),
      IsDiscreteGPU (devices.get ⟨i, hi⟩) = true →
      (∀ j (hj : j < i),
        IsDiscreteGPU (devices.get ⟨j, Nat.lt_trans hj hi⟩) = false) →
      pickDiscreteLoop devices = some (devices.get ⟨i, hi⟩) := by
  induction devices with
  | nil => intro i hi; exact absurd hi (Nat.not_lt_zero i)
  | cons d rest ih =>
    intro i hi hdisc hmin
    cases i with
    | zero =>
      have hd : IsDiscreteGPU d = true := hdisc
      show pickDiscreteLoop (d :: rest) = some d
      simp [pickDiscreteLoop, hd]
    | succ n =>
      have hd0 : IsDiscreteGPU d = false := hmin 0 (Nat.succ_pos n)
      simp only [pickDiscreteLoop]
      rw [if_neg (by simp [hd0])]
      exact ih n (Nat.lt_of_succ_lt_succ hi) hdisc
        (fun j hj => hmin (j + 1) (Nat.succ_lt_succ hj))

/-- C8: the selector returns the first enumerated device whose type is
discrete (witnessed by a minimal discrete index), and when no enumerated
device is discrete it returns the device at enumeration index 0
(`head?`). -/
theorem pick_device_spec (devices : List PhysicalDevice) :
    (∀ (i : Nat) (hi : i < devices.length),
      IsDiscreteGPU (devices.get ⟨i, hi⟩) = true →
      (∀ j (hj : j < i),
        IsDiscreteGPU (devices.get ⟨j, Nat.lt_trans hj hi⟩) = false) →
      PickPhysicalVulkanDevice devices = some (devices.get ⟨i, hi⟩)) ∧
    ((∀ d ∈ devices, IsDiscreteGPU d = false) →
      PickPhysicalVulkanDevice devices = devices.head?) := by
  constructor
  · intro i hi hdisc hmin
    simp [PickPhysicalVulkanDevice,
      pickDiscreteLoop_first devices i hi hdisc hmin]
  · intro h
    simp [PickPhysicalVulkanDevice, pickDiscreteLoop_none devices h]

theorem pick_device_spec_witness :
    PickPhysicalVulkanDevice [⟨2⟩, ⟨0⟩] = some ⟨2⟩ ∧
    PickPhysicalVulkanDevice [⟨0⟩, ⟨1⟩] = some ⟨0⟩ := by
  constructor
  · exact (pick_device_spec [⟨2⟩, ⟨0⟩]).1 0 (by decide) (by decide)
      (fun j hj => absurd hj (Nat.not_lt_zero j))
  · exact ((pick_device_spec [⟨0⟩, ⟨1⟩]).2 (by decide)).trans rfl

/-! ### Extent selection -/

/-- C3 counterexample: a capabilities record whose current extent is not
the Vulkan sentinel pair (0xFFFFFFFF, 0xFFFFFFFF) — its height is 600 —
for which `ChooseSwapExtent` does not return the current extent verbatim:
the source keys the sentinel test on the width component alone, so this
record is sent to the clamp branch. -/
theorem choose_extent_c3_counterexample :
    (⟨1, 0, ⟨UINT32_MAX, 600⟩, ⟨100, 100⟩, ⟨1000, 900⟩⟩ :
        VkSurfaceCapabilitiesKHR).currentExtent ≠
      (⟨UINT32_MAX, UINT32_MAX⟩ : VkExtent2D) ∧
    ChooseSwapExtent ⟨1, 0, ⟨UINT32_MAX, 600⟩, ⟨100, 100⟩, ⟨1000, 900⟩⟩ ≠
      (⟨1, 0, ⟨UINT32_MAX, 600⟩, ⟨100, 100⟩, ⟨1000, 900⟩⟩ :
        VkSurfaceCapabilitiesKHR).currentExtent := by decide

/-- C3 (amended): with the sentinel test applied to the width component —
as the source does — the clamp branch lands component-wise inside the
[min, max] extent bounds (for bounds in the Vulkan-guaranteed order
min ≤ max) and returns exactly (800, 600) whenever that request is within
bounds, while every record whose current-extent width differs from the
sentinel value is returned verbatim. -/
theorem choose_extent_amended (caps : VkSurfaceCapabilitiesKHR)
    (hW : caps.minImageExtent.width ≤ caps.maxImageExtent.width)
    (hH : caps.minImageExtent.height ≤ caps.maxImageExtent.height) :
    (caps.currentExtent.width = UINT32_MAX →
      (caps.minImageExtent.width ≤ (ChooseSwapExtent caps).width ∧
        (ChooseSwapExtent caps).width ≤ caps.maxImageExtent.width ∧
        caps.minImageExtent.height ≤ (ChooseSwapExtent caps).height ∧
        (ChooseSwapExtent caps).height ≤ caps.maxImageExtent.height) ∧
      ((caps.minImageExtent.width ≤ WIDTH ∧
          WIDTH ≤ caps.maxImageExtent.width ∧
          caps.minImageExtent.height ≤ HEIGHT ∧
          HEIGHT ≤ caps.maxImageExtent.height) →
        ChooseSwapExtent caps = ⟨WIDTH, HEIGHT⟩)) ∧
    (caps.currentExtent.width ≠ UINT32_MAX →
      ChooseSwapExtent caps = caps.currentExtent) := by
  constructor
  · intro hsent
    have hbranch : ChooseSwapExtent caps =
        ⟨max caps.minImageExtent.width (min caps.maxImageExtent.width WIDTH),
         max caps.minImageExtent.height
           (min caps.maxImageExtent.height HEIGHT)⟩ := by
      simp [ChooseSwapExtent, hsent]
    constructor
    · rw [hbranch]
      exact ⟨le_max_left _ _, max_le hW (min_le_left _ _),
        le_max_left _ _, max_le hH (min_le_left _ _)⟩
    · intro hin
      obtain ⟨h1, h2, h3, h4⟩ := hin
      rw [hbranch]
      rw [min_eq_right h2, max_eq_right h1, min_eq_right h4, max_eq_right h3]
  · intro hns
    simp [ChooseSwapExtent, hns]

theorem choose_extent_amended_witness :
    ChooseSwapExtent
        ⟨1, 0, ⟨UINT32_MAX, UINT32_MAX⟩, ⟨100, 100⟩, ⟨1000, 900⟩⟩ =
      ⟨800, 600⟩ ∧
    ChooseSwapExtent ⟨1, 0, ⟨640, 480⟩, ⟨100, 100⟩, ⟨1000, 900⟩⟩ =
      ⟨640, 480⟩ := by
  constructor
  · exact ((choose_extent_amended
      ⟨1, 0, ⟨UINT32_MAX, UINT32_MAX⟩, ⟨100, 100⟩, ⟨1000, 900⟩⟩
      (by decide) (by decide)).1 (by decide)).2 (by decide)
  · exact (choose_extent_amended
      ⟨1, 0, ⟨640, 480⟩, ⟨100, 100⟩, ⟨1000, 900⟩⟩
      (by decide) (by decide)).2 (by decide)

/-- C10: the sentinel decision inspects only the width component — every
record whose current-extent width is not 0xFFFFFFFF has its current
extent returned verbatim and unclamped, whatever its height or the
min/max bounds are. -/
theorem choose_extent_width_only_sentinel (caps : VkSurfaceCapabilitiesKHR)
    (h : caps.currentExtent.width ≠ UINT32_MAX) :
    ChooseSwapExtent caps = caps.currentExtent := by
  simp [ChooseSwapExtent, h]

theorem choose_extent_width_only_sentinel_witness :
    ChooseSwapExtent ⟨1, 0, ⟨500, UINT32_MAX⟩, ⟨600, 600⟩, ⟨700, 700⟩⟩ =
      ⟨500, UINT32_MAX⟩ :=
  choose_extent_width_only_sentinel
    ⟨1, 0, ⟨500, UINT32_MAX⟩, ⟨600, 600⟩, ⟨700, 700⟩⟩ (by decide)

/-! ### Parallel per-image sequences -/

theorem get?_map_local {α β : Type} (f : α → β) :
    ∀ (l : List α) (n : Nat), (l.map f).get? n = (l.get? n).map f
  | [], _ => by simp
  | _ :: _, 0 => rfl
  | _ :: l, n + 1 => get?_map_local f l n

theorem get?_isSome_of_lt {α : Type} :
    ∀ (l : List α) (n : Nat), n < l.length → ∃ a, l.get? n = some a
  | [], n, h => absurd h (Nat.not_lt_zero n)
  | a :: _, 0, _ => ⟨a, rfl⟩
  | _ :: l, n + 1, h => get?_isSome_of_lt l n (Nat.lt_of_succ_lt_succ h)

/-- C9: the view, framebuffer and command-buffer sequences built from the
read-back swapchain image list all have the image list's length, and at
every index i the recorded command buffer's render pass targets
framebuffer i, whose sole attachment is view i, which wraps image i. -/
theorem swapchain_parallel_sequences (images : List Nat)
    (extent : VkExtent2D) :
    (CreateImageViews images).length = images.length ∧
    (CreateFramebuffers (CreateImageViews images) extent).length =
      images.length ∧
    (CreateCommandBuffers
        (CreateFramebuffers (CreateImageViews images) extent)).length =
      images.length ∧
    ∀ i, i < images.length →
      ∃ v fb, (CreateImageViews images).get? i = some v ∧
        (CreateFramebuffers (CreateImageViews images) extent).get? i =
          some fb ∧
        fb.attachment = v ∧
        (CreateCommandBuffers
            (CreateFramebuffers (CreateImageViews images) extent)).get? i =
          some ⟨fb, 3, 1⟩ := by
  refine ⟨by simp [CreateImageViews],
    by simp [CreateImageViews, CreateFramebuffers],
    by simp [CreateImageViews, CreateFramebuffers, CreateCommandBuffers], ?_⟩
  intro i hi
  obtain ⟨img, himg⟩ := get?_isSome_of_lt images i hi
  have himg2 : images[i]? = some img := by
    rw [← List.get?_eq_getElem?]
    exact himg
  refine ⟨⟨img⟩, ⟨⟨img⟩, extent.width, extent.height⟩, ?_, ?_, rfl, ?_⟩
  · simp [CreateImageViews, get?_map_local, himg, himg2]
  · simp [CreateImageViews, CreateFramebuffers, get?_map_local, himg, himg2]
  · simp [CreateImageViews, CreateFramebuffers, CreateCommandBuffers,
      get?_map_local, himg, himg2]

theorem swapchain_parallel_sequences_witness :
    (CreateCommandBuffers (CreateFramebuffers (CreateImageViews [10, 20])
        ⟨800, 600⟩)).get? 1 = some ⟨⟨⟨20⟩, 800, 600⟩, 3, 1⟩ := by
  obtain ⟨v, fb, hv, hfb, ha, hcb⟩ :=
    (swapchain_parallel_sequences [10, 20] ⟨800, 600⟩).2.2.2 1 (by decide)
  have h1 : (CreateFramebuffers (CreateImageViews [10, 20])
      ⟨800, 600⟩).get? 1 = some ⟨⟨20⟩, 800, 600⟩ := by decide
  rw [hfb] at h1
  rw [Option.some.inj h1] at hcb
  exact hcb
